import Mathlib

/-!
# Verification of the PM2.5 AQI calculator core

Shallow embedding of the computational core of the `pm25-aqi-calculator`
repository: the concentration calculator and AQI mapper from
`aqi_calculator.py`, and the synthetic monthly series generator and the second
category table from `report_generator.py`.  Real-number arithmetic of the
source is modelled over `ℚ`; Python's `math.trunc` and `round` (banker's
rounding, ties to even) are modelled explicitly.
-/

/-- Python `math.trunc`: rounds a real number toward zero to an integer. -/
def pyTrunc (q : ℚ) : ℤ :=
  if 0 ≤ q then ⌊q⌋ else ⌈q⌉

/-- Python `round` to the nearest integer: round half to even. -/
def pyRound (q : ℚ) : ℤ :=
  if q - (⌊q⌋ : ℚ) < 1/2 then ⌊q⌋
  else if 1/2 < q - (⌊q⌋ : ℚ) then ⌊q⌋ + 1
  else if ⌊q⌋ % 2 = 0 then ⌊q⌋ else ⌊q⌋ + 1

namespace aqi_calculator

/-- `calculate_pm25_concentration` from `aqi_calculator.py`: PM2.5
concentration in µg/m³ from masses (mg), flow rate (L/min) and times (min). -/
def calculate_pm25_concentration (mass_initial mass_final flow_rate time_start time_stop : ℚ) : ℚ :=
  if flow_rate ≤ 0 ∨ time_stop ≤ time_start then 0
  else
    let mass_diff_mg := mass_final - mass_initial
    let volume_l := flow_rate * (time_stop - time_start)
    let volume_m3 := volume_l / 1000
    let concentration_mg_m3 := mass_diff_mg / volume_m3
    let concentration_ug_m3 := concentration_mg_m3 * 1000
    concentration_ug_m3

/-- `get_aqi_breakpoints` from `aqi_calculator.py`: the EPA PM2.5 breakpoint
table, in the source's insertion order (concentration range, index range). -/
def get_aqi_breakpoints : List ((ℚ × ℚ) × (ℤ × ℤ)) :=
  [(((0 : ℚ), (12 : ℚ)), ((0 : ℤ), (50 : ℤ))),
   (((12.1 : ℚ), (35.4 : ℚ)), ((51 : ℤ), (100 : ℤ))),
   (((35.5 : ℚ), (55.4 : ℚ)), ((101 : ℤ), (150 : ℤ))),
   (((55.5 : ℚ), (150.4 : ℚ)), ((151 : ℤ), (200 : ℤ))),
   (((150.5 : ℚ), (250.4 : ℚ)), ((201 : ℤ), (300 : ℤ))),
   (((250.5 : ℚ), (350.4 : ℚ)), ((301 : ℤ), (400 : ℤ))),
   (((350.5 : ℚ), (500.4 : ℚ)), ((401 : ℤ), (500 : ℤ)))]

/-- The linear interpolation step of `calculate_aqi`:
`aqi = ((i_high - i_low) / (bp_high - bp_low)) * (c - bp_low) + i_low`,
rounded with Python `round`. -/
def interpolate (b : (ℚ × ℚ) × (ℤ × ℤ)) (c : ℚ) : ℤ :=
  pyRound (((b.2.2 : ℚ) - (b.2.1 : ℚ)) / (b.1.2 - b.1.1) * (c - b.1.1) + (b.2.1 : ℚ))

/-- The body of `calculate_aqi` after the truncation step: scan the breakpoint
table for the first matching interval and linearly interpolate (rounding the
result), else clamp to 500 above the scale and to 0 below it. -/
def aqiOfTruncated (c : ℚ) : ℤ :=
  match get_aqi_breakpoints.find? (fun b => decide (b.1.1 ≤ c ∧ c ≤ b.1.2)) with
  | some b => interpolate b c
  | none => if (500.4 : ℚ) < c then 500 else 0

/-- `calculate_aqi` from `aqi_calculator.py`: truncate the concentration to one
decimal place, then map it through the breakpoint table. -/
def calculate_aqi (pm25_concentration : ℚ) : ℤ :=
  aqiOfTruncated ((pyTrunc (pm25_concentration * 10) : ℚ) / 10)

/-- `get_aqi_category` from `aqi_calculator.py`: health category label and
RGBA color for a given AQI value (6 tiers, catch-all above 300). -/
def get_aqi_category (aqi : ℤ) : String × (ℚ × ℚ × ℚ × ℚ) :=
  if 0 ≤ aqi ∧ aqi ≤ 50 then ("Good", (0, 1, 0, 1))
  else if 51 ≤ aqi ∧ aqi ≤ 100 then ("Moderate", (1, 1, 0, 1))
  else if 101 ≤ aqi ∧ aqi ≤ 150 then ("Unhealthy for Sensitive Groups", (1, 0.5, 0, 1))
  else if 151 ≤ aqi ∧ aqi ≤ 200 then ("Unhealthy", (1, 0, 0, 1))
  else if 201 ≤ aqi ∧ aqi ≤ 300 then ("Very Unhealthy", (0.5, 0, 0.5, 1))
  else ("Hazardous", (0.5, 0, 0.1, 1))

end aqi_calculator

namespace report_generator

/-- Outcome of the ambient random source of `report_generator.py`: a stream of
draws together with how many draws have been consumed so far. -/
structure RandState where
  stream : ℕ → ℕ
  calls : ℕ

/-- Python `random.randint(lo, hi)`: consumes one draw from the stream and
returns a value in `[lo, hi]` (every value in the range is a possible
outcome), together with the advanced stream state. -/
def randint (lo hi : ℤ) (s : RandState) : ℤ × RandState :=
  (lo + (s.stream s.calls : ℤ) % (hi - lo + 1), ⟨s.stream, s.calls + 1⟩)

/-- One non-anchor iteration of the loop body of `generate_monthly_data`:
baseline from the previous day (or a fresh uniform draw on the first day),
seasonal adjustment by month, weekly adjustment by weekday (Monday = 0), and
the final clamp `max(15, min(250, base_aqi))`. -/
def gen_day (previous_aqi : Option ℤ) (month weekday : ℕ) (s : RandState) : ℤ × RandState :=
  let bs :=
    match previous_aqi with
    | none => randint 40 120 s
    | some p =>
      let vs := randint (-20) 20 s
      (p + vs.1, vs.2)
  let ss :=
    if month = 11 ∨ month = 12 ∨ month = 1 ∨ month = 2 then randint 10 25 bs.2
    else if month = 5 ∨ month = 6 ∨ month = 7 ∨ month = 8 then randint (-15) 5 bs.2
    else ((0 : ℤ), bs.2)
  let ws :=
    if weekday < 5 then
      let vs := randint 0 10 ss.2
      (bs.1 + ss.1 + vs.1, vs.2)
    else
      let vs := randint 0 8 ss.2
      (bs.1 + ss.1 - vs.1, vs.2)
  (max 15 (min 250 ws.1), ws.2)

/-- The `while current_date <= today` loop of `generate_monthly_data`, over the
remaining days of the month (dates are modelled by their day-of-month).  The
anchor branch fires on `today_day` when a current AQI was supplied; every other
day is generated by `gen_day`.  Returns the accumulated (dates, aqi_values)
and the final (previous_aqi, random state). -/
def generate_loop (current_aqi : Option ℤ) (today_day month first_weekday : ℕ) :
    List ℕ → Option ℤ → RandState → (List ℕ × List ℤ) × (Option ℤ × RandState)
  | [], prev, s => (([], []), (prev, s))
  | d :: ds, prev, s =>
    if d = today_day ∧ current_aqi.isSome then
      let rest := generate_loop current_aqi today_day month first_weekday ds current_aqi s
      ((d :: rest.1.1, current_aqi.getD 0 :: rest.1.2), rest.2)
    else
      let vs := gen_day prev month ((first_weekday + (d - 1)) % 7) s
      let rest := generate_loop current_aqi today_day month first_weekday ds (some vs.1) vs.2
      ((d :: rest.1.1, vs.1 :: rest.1.2), rest.2)

/-- `generate_monthly_data` from `report_generator.py`: runs the loop from the
1st of the current month through today (= day `today_day`), starting with no
previous value, and returns the parallel lists (dates, aqi_values). -/
def generate_monthly_data (current_aqi : Option ℤ) (today_day month first_weekday : ℕ)
    (s : RandState) : List ℕ × List ℤ :=
  (generate_loop current_aqi today_day month first_weekday
    (List.range' 1 today_day) none s).1

/-- `get_aqi_category` from `report_generator.py`: health category label for an
AQI value (7 tiers, catch-all above 400). -/
def get_aqi_category (aqi_value : ℤ) : String :=
  if aqi_value ≤ 50 then "Good"
  else if aqi_value ≤ 100 then "Satisfactory"
  else if aqi_value ≤ 150 then "Moderate"
  else if aqi_value ≤ 200 then "Unhealthy for Sensitive Groups"
  else if aqi_value ≤ 300 then "Unhealthy"
  else if aqi_value ≤ 400 then "Very Unhealthy"
  else "Hazardous"

end report_generator

/-- C2 helper: the spec's closed-form expression for the concentration. -/
def spec_concentration (mass_initial mass_final flow_rate time_start time_stop : ℚ) : ℚ :=
  ((mass_final - mass_initial) / (flow_rate * (time_stop - time_start) / 1000)) * 1000

/-! ### Toolkit: Python rounding and truncation -/

theorem pyTrunc_of_nonneg {q : ℚ} (h : 0 ≤ q) : pyTrunc q = ⌊q⌋ := by
  unfold pyTrunc
  rw [if_pos h]

theorem pyTrunc_of_neg {q : ℚ} (h : q < 0) : pyTrunc q = ⌈q⌉ := by
  unfold pyTrunc
  rw [if_neg (not_le.mpr h)]

theorem pyTrunc_eq {q : ℚ} {k : ℤ} (h0 : 0 ≤ q) (h1 : (k : ℚ) ≤ q) (h2 : q < (k : ℚ) + 1) :
    pyTrunc q = k := by
  rw [pyTrunc_of_nonneg h0]
  exact Int.floor_eq_iff.mpr ⟨h1, h2⟩

theorem pyRound_intCast (k : ℤ) : pyRound (k : ℚ) = k := by
  unfold pyRound
  rw [Int.floor_intCast, if_pos (by norm_num)]

theorem pyRound_lt_half {q : ℚ} {k : ℤ} (h1 : (k : ℚ) ≤ q) (h2 : q < (k : ℚ) + 1/2) :
    pyRound q = k := by
  have hf : ⌊q⌋ = k := Int.floor_eq_iff.mpr ⟨h1, by linarith⟩
  unfold pyRound
  rw [hf, if_pos (by linarith)]

theorem pyRound_gt_half {q : ℚ} {k : ℤ} (h1 : (k : ℚ) - 1/2 < q) (h2 : q ≤ (k : ℚ)) :
    pyRound q = k := by
  rcases eq_or_lt_of_le h2 with he | hlt
  · rw [he]
    exact pyRound_intCast k
  · have hf : ⌊q⌋ = k - 1 := Int.floor_eq_iff.mpr ⟨by push_cast; linarith, by push_cast; linarith⟩
    unfold pyRound
    rw [hf]
    rw [if_neg (by push_cast; linarith), if_pos (by push_cast; linarith)]
    omega

theorem le_pyRound {a : ℤ} {q : ℚ} (h : (a : ℚ) ≤ q) : a ≤ pyRound q := by
  have hf : a ≤ ⌊q⌋ := Int.le_floor.mpr h
  unfold pyRound
  split_ifs <;> omega

theorem pyRound_le {q : ℚ} {b : ℤ} (h : q ≤ (b : ℚ)) : pyRound q ≤ b := by
  have hfb : ⌊q⌋ ≤ b := by
    have := Int.floor_mono h
    rwa [Int.floor_intCast] at this
  have key : (1 : ℚ)/2 ≤ q - (⌊q⌋ : ℚ) → ⌊q⌋ + 1 ≤ b := by
    intro hq2
    by_contra hc
    push_neg at hc
    have hbe : ⌊q⌋ = b := by omega
    rw [hbe] at hq2
    linarith
  unfold pyRound
  split_ifs with hlt hgt hev
  · exact hfb
  · exact key (le_of_not_lt hlt)
  · exact hfb
  · exact key (le_of_not_lt hlt)

theorem pyRound_half_bounds (q : ℚ) :
    q - 1/2 ≤ (pyRound q : ℚ) ∧ (pyRound q : ℚ) ≤ q + 1/2 := by
  have h0 : (⌊q⌋ : ℚ) ≤ q := Int.floor_le q
  have h1 : q < (⌊q⌋ : ℚ) + 1 := Int.lt_floor_add_one q
  unfold pyRound
  split_ifs with ha hb hc <;> constructor <;> push_cast <;> linarith

theorem pyRound_mono {q1 q2 : ℚ} (h : q1 ≤ q2) : pyRound q1 ≤ pyRound q2 := by
  by_contra hcon
  push_neg at hcon
  have hc1 : (pyRound q2 : ℚ) + 1 ≤ (pyRound q1 : ℚ) := by
    exact_mod_cast Int.add_one_le_iff.mpr hcon
  have hb1 := pyRound_half_bounds q1
  have hb2 := pyRound_half_bounds q2
  have hle : q2 ≤ q1 := by linarith
  have heq : q1 = q2 := le_antisymm h hle
  rw [heq] at hcon
  exact lt_irrefl _ hcon

/-! ### Toolkit: the breakpoint scan -/

namespace aqi_calculator

theorem interp_mem (lo hi : ℚ) (ilo ihi : ℤ) (q : ℚ) (h1 : lo ≤ q) (h2 : q ≤ hi)
    (hlh : lo < hi) (hii : ilo ≤ ihi) :
    (ilo : ℚ) ≤ ((ihi : ℚ) - (ilo : ℚ)) / (hi - lo) * (q - lo) + (ilo : ℚ) ∧
      ((ihi : ℚ) - (ilo : ℚ)) / (hi - lo) * (q - lo) + (ilo : ℚ) ≤ (ihi : ℚ) := by
  have hs : (0 : ℚ) ≤ ((ihi : ℚ) - (ilo : ℚ)) / (hi - lo) := by
    apply div_nonneg
    · have : (ilo : ℚ) ≤ (ihi : ℚ) := by exact_mod_cast hii
      linarith
    · linarith
  constructor
  · nlinarith [mul_nonneg hs (sub_nonneg.mpr h1)]
  · have hmul : ((ihi : ℚ) - (ilo : ℚ)) / (hi - lo) * (q - lo) ≤
        ((ihi : ℚ) - (ilo : ℚ)) / (hi - lo) * (hi - lo) :=
      mul_le_mul_of_nonneg_left (by linarith) hs
    rw [div_mul_cancel₀ _ (ne_of_gt (by linarith : (0 : ℚ) < hi - lo))] at hmul
    linarith

theorem interpolate_bounds (lo hi : ℚ) (ilo ihi : ℤ) (q : ℚ) (h1 : lo ≤ q) (h2 : q ≤ hi)
    (hlh : lo < hi) (hii : ilo ≤ ihi) :
    ilo ≤ interpolate ((lo, hi), (ilo, ihi)) q ∧ interpolate ((lo, hi), (ilo, ihi)) q ≤ ihi := by
  have h := interp_mem lo hi ilo ihi q h1 h2 hlh hii
  exact ⟨le_pyRound h.1, pyRound_le h.2⟩

theorem aqiOfTruncated_eq_some {q : ℚ} {b : (ℚ × ℚ) × (ℤ × ℤ)}
    (hfind : get_aqi_breakpoints.find? (fun b => decide (b.1.1 ≤ q ∧ q ≤ b.1.2)) = some b) :
    aqiOfTruncated q = interpolate b q := by
  unfold aqiOfTruncated
  rw [hfind]

theorem aqiOfTruncated_eq_none {q : ℚ}
    (hfind : get_aqi_breakpoints.find? (fun b => decide (b.1.1 ≤ q ∧ q ≤ b.1.2)) = none) :
    aqiOfTruncated q = if (500.4 : ℚ) < q then 500 else 0 := by
  unfold aqiOfTruncated
  rw [hfind]

theorem aqiOfTruncated_band1 {q : ℚ} (h1 : 0 ≤ q) (h2 : q ≤ 12) :
    aqiOfTruncated q = interpolate (((0 : ℚ), (12 : ℚ)), ((0 : ℤ), (50 : ℤ))) q := by
  apply aqiOfTruncated_eq_some
  unfold get_aqi_breakpoints
  exact List.find?_cons_of_pos _ (decide_eq_true ⟨h1, h2⟩)

theorem aqiOfTruncated_band2 {q : ℚ} (h1 : (12.1 : ℚ) ≤ q) (h2 : q ≤ (35.4 : ℚ)) :
    aqiOfTruncated q = interpolate (((12.1 : ℚ), (35.4 : ℚ)), ((51 : ℤ), (100 : ℤ))) q := by
  apply aqiOfTruncated_eq_some
  unfold get_aqi_breakpoints
  rw [List.find?_cons_of_neg _ (by simp only [decide_eq_true_eq]; rintro ⟨ha, hb⟩; linarith)]
  exact List.find?_cons_of_pos _ (decide_eq_true ⟨h1, h2⟩)

theorem aqiOfTruncated_band3 {q : ℚ} (h1 : (35.5 : ℚ) ≤ q) (h2 : q ≤ (55.4 : ℚ)) :
    aqiOfTruncated q = interpolate (((35.5 : ℚ), (55.4 : ℚ)), ((101 : ℤ), (150 : ℤ))) q := by
  apply aqiOfTruncated_eq_some
  unfold get_aqi_breakpoints
  rw [List.find?_cons_of_neg _ (by simp only [decide_eq_true_eq]; rintro ⟨ha, hb⟩; linarith),
    List.find?_cons_of_neg _ (by simp only [decide_eq_true_eq]; rintro ⟨ha, hb⟩; linarith)]
  exact List.find?_cons_of_pos _ (decide_eq_true ⟨h1, h2⟩)

theorem aqiOfTruncated_band4 {q : ℚ} (h1 : (55.5 : ℚ) ≤ q) (h2 : q ≤ (150.4 : ℚ)) :
    aqiOfTruncated q = interpolate (((55.5 : ℚ), (150.4 : ℚ)), ((151 : ℤ), (200 : ℤ))) q := by
  apply aqiOfTruncated_eq_some
  unfold get_aqi_breakpoints
  rw [List.find?_cons_of_neg _ (by simp only [decide_eq_true_eq]; rintro ⟨ha, hb⟩; linarith),
    List.find?_cons_of_neg _ (by simp only [decide_eq_true_eq]; rintro ⟨ha, hb⟩; linarith),
    List.find?_cons_of_neg _ (by simp only [decide_eq_true_eq]; rintro ⟨ha, hb⟩; linarith)]
  exact List.find?_cons_of_pos _ (decide_eq_true ⟨h1, h2⟩)

theorem aqiOfTruncated_band7 {q : ℚ} (h1 : (350.5 : ℚ) ≤ q) (h2 : q ≤ (500.4 : ℚ)) :
    aqiOfTruncated q = interpolate (((350.5 : ℚ), (500.4 : ℚ)), ((401 : ℤ), (500 : ℤ))) q := by
  apply aqiOfTruncated_eq_some
  unfold get_aqi_breakpoints
  rw [List.find?_cons_of_neg _ (by simp only [decide_eq_true_eq]; rintro ⟨ha, hb⟩; linarith),
    List.find?_cons_of_neg _ (by simp only [decide_eq_true_eq]; rintro ⟨ha, hb⟩; linarith),
    List.find?_cons_of_neg _ (by simp only [decide_eq_true_eq]; rintro ⟨ha, hb⟩; linarith),
    List.find?_cons_of_neg _ (by simp only [decide_eq_true_eq]; rintro ⟨ha, hb⟩; linarith),
    List.find?_cons_of_neg _ (by simp only [decide_eq_true_eq]; rintro ⟨ha, hb⟩; linarith),
    List.find?_cons_of_neg _ (by simp only [decide_eq_true_eq]; rintro ⟨ha, hb⟩; linarith)]
  exact List.find?_cons_of_pos _ (decide_eq_true ⟨h1, h2⟩)

theorem find?_eq_none_of_gt {q : ℚ} (hq : (500.4 : ℚ) < q) :
    get_aqi_breakpoints.find? (fun b => decide (b.1.1 ≤ q ∧ q ≤ b.1.2)) = none := by
  rw [List.find?_eq_none]
  intro b hb
  simp only [get_aqi_breakpoints, List.mem_cons, List.not_mem_nil, or_false] at hb
  rcases hb with rfl | rfl | rfl | rfl | rfl | rfl | rfl <;>
    · simp only [decide_eq_true_eq]
      rintro ⟨ha, hb⟩
      linarith

theorem find?_eq_none_of_neg {q : ℚ} (hq : q < 0) :
    get_aqi_breakpoints.find? (fun b => decide (b.1.1 ≤ q ∧ q ≤ b.1.2)) = none := by
  rw [List.find?_eq_none]
  intro b hb
  simp only [get_aqi_breakpoints, List.mem_cons, List.not_mem_nil, or_false] at hb
  rcases hb with rfl | rfl | rfl | rfl | rfl | rfl | rfl <;>
    · simp only [decide_eq_true_eq]
      rintro ⟨ha, hb⟩
      linarith

theorem calculate_aqi_trunc {pm : ℚ} {k : ℤ} (h0 : 0 ≤ pm * 10)
    (h1 : (k : ℚ) ≤ pm * 10) (h2 : pm * 10 < (k : ℚ) + 1) :
    calculate_aqi pm = aqiOfTruncated ((k : ℚ) / 10) := by
  unfold calculate_aqi
  rw [pyTrunc_eq h0 h1 h2]

theorem find?_prop {α : Type} (p : α → Bool) (l : List α) (b : α)
    (h : l.find? p = some b) : p b = true :=
  List.find?_some h

theorem aqiOfTruncated_range (q : ℚ) : 0 ≤ aqiOfTruncated q ∧ aqiOfTruncated q ≤ 500 := by
  cases hfind : get_aqi_breakpoints.find? (fun b => decide (b.1.1 ≤ q ∧ q ≤ b.1.2)) with
  | none =>
    rw [aqiOfTruncated_eq_none hfind]
    split_ifs <;> norm_num
  | some b =>
    rw [aqiOfTruncated_eq_some hfind]
    have hmem := List.mem_of_find?_eq_some hfind
    have hp' := find?_prop _ _ _ hfind
    have hp : b.1.1 ≤ q ∧ q ≤ b.1.2 := of_decide_eq_true hp'
    simp only [get_aqi_breakpoints, List.mem_cons, List.not_mem_nil, or_false] at hmem
    rcases hmem with rfl | rfl | rfl | rfl | rfl | rfl | rfl <;>
      · obtain ⟨hl, hr⟩ := hp
        refine ⟨le_trans ?_ (interpolate_bounds _ _ _ _ _ hl hr ?_ ?_).1,
          le_trans (interpolate_bounds _ _ _ _ _ hl hr ?_ ?_).2 ?_⟩ <;> norm_num

end aqi_calculator

/-! ### Toolkit: the synthetic series generator -/

namespace report_generator

theorem gen_day_fst_bounds (prev : Option ℤ) (month weekday : ℕ) (s : RandState) :
    15 ≤ (gen_day prev month weekday s).1 ∧ (gen_day prev month weekday s).1 ≤ 250 := by
  unfold gen_day
  dsimp only
  exact ⟨le_max_left _ _, max_le (by norm_num) (min_le_left _ _)⟩

theorem generate_loop_fst (ca : Option ℤ) (td m w : ℕ) :
    ∀ (ds : List ℕ) (prev : Option ℤ) (s : RandState),
      (generate_loop ca td m w ds prev s).1.1 = ds := by
  intro ds
  induction ds with
  | nil => intro prev s; rfl
  | cons d ds ih =>
    intro prev s
    unfold generate_loop
    split_ifs with h <;> dsimp only <;> rw [ih]

theorem generate_loop_len (ca : Option ℤ) (td m w : ℕ) :
    ∀ (ds : List ℕ) (prev : Option ℤ) (s : RandState),
      (generate_loop ca td m w ds prev s).1.2.length = ds.length := by
  intro ds
  induction ds with
  | nil => intro prev s; rfl
  | cons d ds ih =>
    intro prev s
    unfold generate_loop
    split_ifs with h <;> dsimp only <;> simp [ih]

theorem generate_loop_clamped (ca : Option ℤ) (td m w : ℕ) :
    ∀ (ds : List ℕ), (∀ d ∈ ds, d ≠ td) →
      ∀ (prev : Option ℤ) (s : RandState) (v : ℤ),
        v ∈ (generate_loop ca td m w ds prev s).1.2 → 15 ≤ v ∧ v ≤ 250 := by
  intro ds
  induction ds with
  | nil =>
    intro h prev s v hv
    simp [generate_loop] at hv
  | cons d ds ih =>
    intro h prev s v hv
    have hd : d ≠ td := h d (List.mem_cons_self d ds)
    unfold generate_loop at hv
    rw [if_neg (fun hc => hd hc.1)] at hv
    dsimp only at hv
    rcases List.mem_cons.mp hv with rfl | hv2
    · exact gen_day_fst_bounds _ _ _ _
    · exact ih (fun x hx => h x (List.mem_cons_of_mem _ hx)) _ _ _ hv2

theorem generate_loop_anchor (t : ℤ) (td m w : ℕ) (prev : Option ℤ) (s : RandState) :
    generate_loop (some t) td m w [td] prev s = (([td], [t]), (some t, s)) := by
  unfold generate_loop
  rw [if_pos ⟨rfl, rfl⟩]
  rfl

theorem generate_loop_append (ca : Option ℤ) (td m w : ℕ) :
    ∀ (ds1 ds2 : List ℕ) (prev : Option ℤ) (s : RandState),
      generate_loop ca td m w (ds1 ++ ds2) prev s =
        (((generate_loop ca td m w ds1 prev s).1.1 ++
            (generate_loop ca td m w ds2 (generate_loop ca td m w ds1 prev s).2.1
              (generate_loop ca td m w ds1 prev s).2.2).1.1,
          (generate_loop ca td m w ds1 prev s).1.2 ++
            (generate_loop ca td m w ds2 (generate_loop ca td m w ds1 prev s).2.1
              (generate_loop ca td m w ds1 prev s).2.2).1.2),
          (generate_loop ca td m w ds2 (generate_loop ca td m w ds1 prev s).2.1
            (generate_loop ca td m w ds1 prev s).2.2).2) := by
  intro ds1
  induction ds1 with
  | nil => intro ds2 prev s; rfl
  | cons d ds ih =>
    intro ds2 prev s
    by_cases h : d = td ∧ ca.isSome = true
    · simp only [List.cons_append, generate_loop, if_pos h, List.append_eq, ih]
    · simp only [List.cons_append, generate_loop, if_neg h, List.append_eq, ih]

end report_generator

/-- C2: with `flow_rate > 0` and `stop_time > start_time`,
`calculate_pm25_concentration` returns exactly
`((final_mass - initial_mass) / (flow_rate * (stop_time - start_time) / 1000)) * 1000`,
with no rounding applied inside the function. -/
theorem claim_C2_concentration_formula
    (mi mf fr ts tp : ℚ) (hfr : 0 < fr) (ht : ts < tp) :
    aqi_calculator.calculate_pm25_concentration mi mf fr ts tp =
      spec_concentration mi mf fr ts tp := by
  unfold aqi_calculator.calculate_pm25_concentration spec_concentration
  rw [if_neg]
  push_neg
  exact ⟨hfr, ht⟩

/-- Witness for C2 at the spec's worked example. -/
theorem claim_C2_concentration_formula_witness :
    (0 : ℚ) < 16.7 ∧ (0 : ℚ) < 1440 ∧
      aqi_calculator.calculate_pm25_concentration 100 102.5 16.7 0 1440 =
        spec_concentration 100 102.5 16.7 0 1440 := by
  refine ⟨by norm_num, by norm_num, ?_⟩
  exact claim_C2_concentration_formula 100 102.5 16.7 0 1440 (by norm_num) (by norm_num)

/-- C3: with `flow_rate ≤ 0` or `stop_time ≤ start_time`,
`calculate_pm25_concentration` returns 0 (the division branch is never
reached: the function is total and takes the guard branch). -/
theorem claim_C3_degenerate_returns_zero
    (mi mf fr ts tp : ℚ) (h : fr ≤ 0 ∨ tp ≤ ts) :
    aqi_calculator.calculate_pm25_concentration mi mf fr ts tp = 0 := by
  unfold aqi_calculator.calculate_pm25_concentration
  rw [if_pos h]

/-- Witness for C3 at `flow_rate = 0` and at `stop_time = start_time`. -/
theorem claim_C3_degenerate_returns_zero_witness :
    ((0 : ℚ) ≤ 0 ∨ (1440 : ℚ) ≤ 0) ∧
      aqi_calculator.calculate_pm25_concentration 100 102.5 0 0 1440 = 0 ∧
      aqi_calculator.calculate_pm25_concentration 100 102.5 16.7 30 30 = 0 := by
  refine ⟨Or.inl le_rfl, ?_, ?_⟩
  · exact claim_C3_degenerate_returns_zero 100 102.5 0 0 1440 (Or.inl le_rfl)
  · exact claim_C3_degenerate_returns_zero 100 102.5 16.7 30 30 (Or.inr le_rfl)

/-- C4: exact boundary equalities at the first breakpoint-table edges:
`calculate_aqi 12.0 = 50`, `calculate_aqi 12.1 = 51`,
`calculate_aqi 35.4 = 100`, `calculate_aqi 35.5 = 101`. -/
theorem claim_C4_boundary_equalities :
    aqi_calculator.calculate_aqi 12.0 = 50 ∧
      aqi_calculator.calculate_aqi 12.1 = 51 ∧
      aqi_calculator.calculate_aqi 35.4 = 100 ∧
      aqi_calculator.calculate_aqi 35.5 = 101 := by
  refine ⟨?_, ?_, ?_, ?_⟩
  · rw [@aqi_calculator.calculate_aqi_trunc 12.0 120 (by norm_num) (by norm_num) (by norm_num),
      aqi_calculator.aqiOfTruncated_band1 (by norm_num) (by norm_num)]
    unfold aqi_calculator.interpolate
    apply pyRound_lt_half <;> push_cast <;> norm_num
  · rw [@aqi_calculator.calculate_aqi_trunc 12.1 121 (by norm_num) (by norm_num) (by norm_num),
      aqi_calculator.aqiOfTruncated_band2 (by norm_num) (by norm_num)]
    unfold aqi_calculator.interpolate
    apply pyRound_lt_half <;> push_cast <;> norm_num
  · rw [@aqi_calculator.calculate_aqi_trunc 35.4 354 (by norm_num) (by norm_num) (by norm_num),
      aqi_calculator.aqiOfTruncated_band2 (by norm_num) (by norm_num)]
    unfold aqi_calculator.interpolate
    apply pyRound_lt_half <;> push_cast <;> norm_num
  · rw [@aqi_calculator.calculate_aqi_trunc 35.5 355 (by norm_num) (by norm_num) (by norm_num),
      aqi_calculator.aqiOfTruncated_band3 (by norm_num) (by norm_num)]
    unfold aqi_calculator.interpolate
    apply pyRound_lt_half <;> push_cast <;> norm_num

/-- C9: the two category tables disagree on some index in [0,500]: at 350,
`aqi_calculator` says "Hazardous" (6 tiers, catch-all above 300) while
`report_generator` says "Very Unhealthy" (7 tiers, catch-all above 400). -/
theorem claim_C9_category_tables_divergent :
    ∃ i : ℤ, 0 ≤ i ∧ i ≤ 500 ∧
      (aqi_calculator.get_aqi_category i).1 ≠ report_generator.get_aqi_category i := by
  exact ⟨350, by decide⟩

/-- C10: for every index outside [0,300], including every negative index,
`aqi_calculator.get_aqi_category` returns the catch-all ("Hazardous", maroon). -/
theorem claim_C10_catch_all_hazardous
    (i : ℤ) (h : i < 0 ∨ 300 < i) :
    aqi_calculator.get_aqi_category i = ("Hazardous", (0.5, 0, 0.1, 1)) := by
  unfold aqi_calculator.get_aqi_category
  rcases h with h | h
  · rw [if_neg (by omega), if_neg (by omega), if_neg (by omega), if_neg (by omega),
      if_neg (by omega)]
  · rw [if_neg (by omega), if_neg (by omega), if_neg (by omega), if_neg (by omega),
      if_neg (by omega)]

/-- Witness for C10 at the negative index -5. -/
theorem claim_C10_catch_all_hazardous_witness :
    ((-5 : ℤ) < 0 ∨ (300 : ℤ) < -5) ∧
      aqi_calculator.get_aqi_category (-5) = ("Hazardous", (0.5, 0, 0.1, 1)) :=
  ⟨Or.inl (by decide), claim_C10_catch_all_hazardous (-5) (Or.inl (by decide))⟩

/-- C1: for every real concentration `c`, `calculate_aqi c` is an integer in
[0,500]; for every `c > 500.4` it is exactly 500; for every `c < 0` it is
exactly 0. -/
theorem claim_C1_index_range_and_clamps (c : ℚ) :
    (0 ≤ aqi_calculator.calculate_aqi c ∧ aqi_calculator.calculate_aqi c ≤ 500) ∧
      ((500.4 : ℚ) < c → aqi_calculator.calculate_aqi c = 500) ∧
      (c < 0 → aqi_calculator.calculate_aqi c = 0) := by
  refine ⟨?_, ?_, ?_⟩
  · unfold aqi_calculator.calculate_aqi
    exact aqi_calculator.aqiOfTruncated_range _
  · intro hc
    have h0 : (0 : ℚ) ≤ c * 10 := by linarith
    have hk : (5004 : ℤ) ≤ ⌊c * 10⌋ := Int.le_floor.mpr (by push_cast; linarith)
    unfold aqi_calculator.calculate_aqi
    rw [pyTrunc_of_nonneg h0]
    rcases eq_or_lt_of_le hk with he | hlt
    · rw [← he]
      rw [aqi_calculator.aqiOfTruncated_band7 (by push_cast; norm_num) (by push_cast; norm_num)]
      unfold aqi_calculator.interpolate
      apply pyRound_lt_half <;> push_cast <;> norm_num
    · have h5 : (5005 : ℤ) ≤ ⌊c * 10⌋ := by omega
      have h5q : (5005 : ℚ) ≤ (⌊c * 10⌋ : ℚ) := by exact_mod_cast h5
      have hq : (500.4 : ℚ) < (⌊c * 10⌋ : ℚ) / 10 := by
        rw [show (500.4 : ℚ) = 5004 / 10 by norm_num]
        linarith
      rw [aqi_calculator.aqiOfTruncated_eq_none (aqi_calculator.find?_eq_none_of_gt hq),
        if_pos hq]
  · intro hc
    have h0 : c * 10 < 0 := by linarith
    unfold aqi_calculator.calculate_aqi
    rw [pyTrunc_of_neg h0]
    have hk : ⌈c * 10⌉ ≤ 0 := Int.ceil_le.mpr (by push_cast; linarith)
    rcases eq_or_lt_of_le hk with he | hlt
    · rw [he]
      rw [aqi_calculator.aqiOfTruncated_band1 (by norm_num) (by norm_num)]
      unfold aqi_calculator.interpolate
      apply pyRound_lt_half <;> push_cast <;> norm_num
    · have h1 : ⌈c * 10⌉ ≤ -1 := by omega
      have h1q : (⌈c * 10⌉ : ℚ) ≤ -1 := by exact_mod_cast h1
      have hq : (⌈c * 10⌉ : ℚ) / 10 < 0 := by linarith
      rw [aqi_calculator.aqiOfTruncated_eq_none (aqi_calculator.find?_eq_none_of_neg hq),
        if_neg (by linarith)]

/-- Witness for C1: the clamping branches at the concrete concentrations 600
(above scale) and -3 (below scale). -/
theorem claim_C1_index_range_and_clamps_witness :
    ((500.4 : ℚ) < 600 ∧ aqi_calculator.calculate_aqi 600 = 500) ∧
      ((-3 : ℚ) < 0 ∧ aqi_calculator.calculate_aqi (-3) = 0) :=
  ⟨⟨by norm_num, (claim_C1_index_range_and_clamps 600).2.1 (by norm_num)⟩,
    ⟨by norm_num, (claim_C1_index_range_and_clamps (-3)).2.2 (by norm_num)⟩⟩

/-- C6: on the first band [0,12], `calculate_aqi` lands in [0,50] and is
monotonically non-decreasing. -/
theorem claim_C6_monotone_band1 (c1 c2 : ℚ) (h10 : 0 ≤ c1) (h12 : c1 ≤ 12)
    (h20 : 0 ≤ c2) (h22 : c2 ≤ 12) :
    (0 ≤ aqi_calculator.calculate_aqi c1 ∧ aqi_calculator.calculate_aqi c1 ≤ 50) ∧
      (c1 ≤ c2 → aqi_calculator.calculate_aqi c1 ≤ aqi_calculator.calculate_aqi c2) := by
  have hq : ∀ c : ℚ, 0 ≤ c → c ≤ 12 →
      0 ≤ (⌊c * 10⌋ : ℚ) / 10 ∧ (⌊c * 10⌋ : ℚ) / 10 ≤ 12 := by
    intro c h0 h2
    constructor
    · have h' : (0 : ℤ) ≤ ⌊c * 10⌋ := Int.floor_nonneg.mpr (by linarith)
      have h'' : (0 : ℚ) ≤ (⌊c * 10⌋ : ℚ) := by exact_mod_cast h'
      linarith
    · have h120 : ⌊c * 10⌋ ≤ 120 := by
        have hm := Int.floor_mono (show c * 10 ≤ ((120 : ℤ) : ℚ) by push_cast; linarith)
        rwa [Int.floor_intCast] at hm
      have h'' : (⌊c * 10⌋ : ℚ) ≤ 120 := by exact_mod_cast h120
      linarith
  have key : ∀ c : ℚ, 0 ≤ c → c ≤ 12 →
      aqi_calculator.calculate_aqi c = pyRound ((50 : ℚ) / 12 * ((⌊c * 10⌋ : ℚ) / 10)) := by
    intro c h0 h2
    unfold aqi_calculator.calculate_aqi
    rw [pyTrunc_of_nonneg (by linarith)]
    rw [aqi_calculator.aqiOfTruncated_band1 (hq c h0 h2).1 (hq c h0 h2).2]
    unfold aqi_calculator.interpolate
    congr 1
    push_cast
    ring
  constructor
  · rw [key c1 h10 h12]
    constructor
    · apply le_pyRound
      push_cast
      linarith [(hq c1 h10 h12).1]
    · apply pyRound_le
      push_cast
      linarith [(hq c1 h10 h12).2]
  · intro hle
    rw [key c1 h10 h12, key c2 h20 h22]
    apply pyRound_mono
    have hm : ⌊c1 * 10⌋ ≤ ⌊c2 * 10⌋ := Int.floor_mono (by linarith)
    have hm' : (⌊c1 * 10⌋ : ℚ) ≤ (⌊c2 * 10⌋ : ℚ) := by exact_mod_cast hm
    apply mul_le_mul_of_nonneg_left _ (by norm_num : (0 : ℚ) ≤ 50 / 12)
    linarith

/-- Witness for C6 at the concrete band-1 concentrations 3 and 7. -/
theorem claim_C6_monotone_band1_witness :
    ((0 : ℚ) ≤ 3 ∧ (3 : ℚ) ≤ 12 ∧ (0 : ℚ) ≤ 7 ∧ (7 : ℚ) ≤ 12 ∧ (3 : ℚ) ≤ 7) ∧
      (0 ≤ aqi_calculator.calculate_aqi 3 ∧ aqi_calculator.calculate_aqi 3 ≤ 50) ∧
      aqi_calculator.calculate_aqi 3 ≤ aqi_calculator.calculate_aqi 7 := by
  refine ⟨⟨by norm_num, by norm_num, by norm_num, by norm_num, by norm_num⟩, ?_, ?_⟩
  · exact (claim_C6_monotone_band1 3 7 (by norm_num) (by norm_num) (by norm_num)
      (by norm_num)).1
  · exact (claim_C6_monotone_band1 3 7 (by norm_num) (by norm_num) (by norm_num)
      (by norm_num)).2 (by norm_num)

/-- Shared evaluation: the spec's worked example concentration, exactly. -/
theorem worked_example_concentration :
    aqi_calculator.calculate_pm25_concentration 100 102.5 16.7 0 1440 = 156250 / 1503 := by
  unfold aqi_calculator.calculate_pm25_concentration
  rw [if_neg (by norm_num)]
  dsimp only
  norm_num

/-- Shared evaluation: the AQI of the worked-example concentration. -/
theorem worked_example_aqi :
    aqi_calculator.calculate_aqi ((156250 : ℚ) / 1503) = 176 := by
  rw [@aqi_calculator.calculate_aqi_trunc (156250 / 1503) 1039 (by norm_num) (by norm_num)
      (by norm_num),
    aqi_calculator.aqiOfTruncated_band4 (by norm_num) (by norm_num)]
  unfold aqi_calculator.interpolate
  apply pyRound_gt_half <;> push_cast <;> norm_num

/-- Shared evaluation: the AQI of the spec's rounded concentration 103.96. -/
theorem worked_example_aqi_at_103_96 :
    aqi_calculator.calculate_aqi 103.96 = 176 := by
  rw [@aqi_calculator.calculate_aqi_trunc 103.96 1039 (by norm_num) (by norm_num) (by norm_num),
    aqi_calculator.aqiOfTruncated_band4 (by norm_num) (by norm_num)]
  unfold aqi_calculator.interpolate
  apply pyRound_gt_half <;> push_cast <;> norm_num

/-- C5 counterexample: at the spec's worked example the concentration is
156250/1503 (≈ 103.96), but the resulting index is not 175: `calculate_aqi`
returns 176 there, and also at the literal 103.96. -/
theorem claim_C5_counterexample :
    aqi_calculator.calculate_pm25_concentration 100 102.5 16.7 0 1440 = 156250 / 1503 ∧
      aqi_calculator.calculate_aqi ((156250 : ℚ) / 1503) ≠ 175 ∧
      aqi_calculator.calculate_aqi 103.96 ≠ 175 := by
  refine ⟨worked_example_concentration, ?_, ?_⟩
  · rw [worked_example_aqi]
    decide
  · rw [worked_example_aqi_at_103_96]
    decide

/-- C5 (amended): the worked example gives concentration 156250/1503
(≈ 103.96 µg/m³); `calculate_aqi` truncates it to 103.9, selects the
[55.5,150.4] → [151,200] tier, and returns the interpolated index 176
(= round(151 + (103.9-55.5)/(150.4-55.5)·(200-151)) = round(175.99…)),
not 175. -/
theorem claim_C5_worked_example_amended :
    aqi_calculator.calculate_pm25_concentration 100 102.5 16.7 0 1440 = 156250 / 1503 ∧
      (pyTrunc ((156250 / 1503 : ℚ) * 10) : ℚ) / 10 = 103.9 ∧
      aqi_calculator.calculate_aqi ((156250 : ℚ) / 1503) = 176 ∧
      aqi_calculator.calculate_aqi 103.96 = 176 ∧
      pyRound ((151 : ℚ) + ((103.9 : ℚ) - 55.5) / ((150.4 : ℚ) - 55.5) * (200 - 151)) = 176 := by
  refine ⟨worked_example_concentration, ?_, worked_example_aqi, worked_example_aqi_at_103_96, ?_⟩
  · rw [@pyTrunc_eq (156250 / 1503 * 10) 1039 (by norm_num) (by norm_num) (by norm_num)]
    norm_num
  · apply pyRound_gt_half <;> push_cast <;> norm_num

/-- C8 counterexample: with flow_rate = 1 > 0 and stop_time = 1 > start_time
= 0 but final_mass = 99 < initial_mass = 100, the returned concentration is
negative (-1000000 µg/m³), not non-negative. -/
theorem claim_C8_counterexample :
    (0 : ℚ) < 1 ∧ (0 : ℚ) < 1 - 0 ∧
      aqi_calculator.calculate_pm25_concentration 100 99 1 0 1 < 0 := by
  refine ⟨by norm_num, by norm_num, ?_⟩
  unfold aqi_calculator.calculate_pm25_concentration
  rw [if_neg (by norm_num)]
  dsimp only
  norm_num

/-- C8 (amended): for flow_rate > 0, stop_time > start_time and
final_mass ≥ initial_mass, the returned concentration is non-negative. -/
theorem claim_C8_nonneg_amended (mi mf fr ts tp : ℚ)
    (hfr : 0 < fr) (ht : ts < tp) (hm : mi ≤ mf) :
    0 ≤ aqi_calculator.calculate_pm25_concentration mi mf fr ts tp := by
  unfold aqi_calculator.calculate_pm25_concentration
  rw [if_neg (by push_neg; exact ⟨hfr, ht⟩)]
  dsimp only
  apply mul_nonneg
  · apply div_nonneg (by linarith)
    apply div_nonneg _ (by norm_num)
    exact mul_nonneg (le_of_lt hfr) (by linarith)
  · norm_num

/-- C7: for every outcome of the random source, `generate_monthly_data` with
anchor `todayIndex` on day `n ≥ 1` of the month produces exactly `n` entries
in chronological order (days 1 through `n`); the last entry's index equals
`todayIndex` exactly, and every earlier entry's index lies in [15, 250]. -/
theorem claim_C7_monthly_series (t : ℤ) (n month wd1 : ℕ)
    (s : report_generator.RandState) (hn : 1 ≤ n) :
    (report_generator.generate_monthly_data (some t) n month wd1 s).1 = List.range' 1 n ∧
      (report_generator.generate_monthly_data (some t) n month wd1 s).2.length = n ∧
      (report_generator.generate_monthly_data (some t) n month wd1 s).2.getLast? = some t ∧
      ∀ v ∈ (report_generator.generate_monthly_data (some t) n month wd1 s).2.dropLast,
        15 ≤ v ∧ v ≤ 250 := by
  obtain ⟨m, rfl⟩ : ∃ m, n = m + 1 := ⟨n - 1, by omega⟩
  have hsplit : List.range' 1 (m + 1) = List.range' 1 m ++ [m + 1] := by
    rw [List.range'_1_concat, Nat.add_comm 1 m]
  unfold report_generator.generate_monthly_data
  rw [hsplit, report_generator.generate_loop_append,
    report_generator.generate_loop_anchor]
  dsimp only
  refine ⟨?_, ?_, ?_, ?_⟩
  · rw [report_generator.generate_loop_fst]
  · rw [List.length_append, report_generator.generate_loop_len]
    simp [List.length_range']
  · exact List.getLast?_concat _
  · rw [List.dropLast_concat]
    intro v hv
    refine report_generator.generate_loop_clamped (some t) (m + 1) month wd1
      (List.range' 1 m) ?_ none s v hv
    intro d hd
    obtain ⟨i, hi, rfl⟩ := List.mem_range'.mp hd
    omega

/-- Witness for C7 at anchor 80, day 5 of month 10, first weekday Tuesday,
and the all-zeros draw stream. -/
theorem claim_C7_monthly_series_witness :
    1 ≤ 5 ∧
      ((report_generator.generate_monthly_data (some 80) 5 10 2 ⟨fun _ => 0, 0⟩).1 =
          List.range' 1 5 ∧
        (report_generator.generate_monthly_data (some 80) 5 10 2 ⟨fun _ => 0, 0⟩).2.length = 5 ∧
        (report_generator.generate_monthly_data (some 80) 5 10 2
            ⟨fun _ => 0, 0⟩).2.getLast? = some 80 ∧
        ∀ v ∈ (report_generator.generate_monthly_data (some 80) 5 10 2
            ⟨fun _ => 0, 0⟩).2.dropLast, 15 ≤ v ∧ v ≤ 250) :=
  ⟨by norm_num, claim_C7_monthly_series 80 5 10 2 ⟨fun _ => 0, 0⟩ (by norm_num)⟩

/-- Witness for the amended C8 at the spec's worked example. -/
theorem claim_C8_nonneg_amended_witness :
    ((0 : ℚ) < 16.7 ∧ (0 : ℚ) < 1440 ∧ (100 : ℚ) ≤ 102.5) ∧
      0 ≤ aqi_calculator.calculate_pm25_concentration 100 102.5 16.7 0 1440 :=
  ⟨⟨by norm_num, by norm_num, by norm_num⟩,
    claim_C8_nonneg_amended 100 102.5 16.7 0 1440 (by norm_num) (by norm_num) (by norm_num)⟩
